import Mathlib

/-!  Verification of the incident-chain aggregation and analysis-orchestration
core of the DevOps AI analysis backend (`python_backend/analyzer`).

The Python code is shallowly embedded: JSON values become an inductive type,
Python truthiness and `dict.get` become executable functions, each HTTP hop of
the aggregator is driven by an environment recording that hop's outcome, and
the orchestrator `perform_analysis` becomes a function from a request and an
environment to a result, a metric-event trace and a network-call trace.
Exceptions are modelled with `Except`; a `dict.get` applied to a non-dict,
or a slice of a non-sliceable value, is the raising case.  -/

/-- JSON values as decoded by `response.json()`.  Numbers are modelled as
integers (no claim depends on fractional values). -/
inductive Json where
  | null : Json
  | bool (b : Bool) : Json
  | num (n : Int) : Json
  | str (s : String) : Json
  | arr (xs : List Json) : Json
  | obj (fields : List (String × Json)) : Json
deriving Inhabited

mutual

/-- Structural boolean equality on JSON values. -/
def Json.beq : Json → Json → Bool
  | .null, .null => true
  | .bool a, .bool b => a == b
  | .num a, .num b => a == b
  | .str a, .str b => a == b
  | .arr xs, .arr ys => Json.beqList xs ys
  | .obj xs, .obj ys => Json.beqFields xs ys
  | _, _ => false

/-- Structural boolean equality on JSON arrays. -/
def Json.beqList : List Json → List Json → Bool
  | [], [] => true
  | x :: xs, y :: ys => Json.beq x y && Json.beqList xs ys
  | _, _ => false

/-- Structural boolean equality on JSON object field lists. -/
def Json.beqFields : List (String × Json) → List (String × Json) → Bool
  | [], [] => true
  | (k, v) :: xs, (l, w) :: ys => k == l && Json.beq v w && Json.beqFields xs ys
  | _, _ => false

end

mutual

/-- `Json.beq` is reflexive. -/
def Json.beq_self : (a : Json) → Json.beq a a = true
  | .null => rfl
  | .bool a => by simp [Json.beq]
  | .num a => by simp [Json.beq]
  | .str a => by simp [Json.beq]
  | .arr xs => by simpa [Json.beq] using Json.beqList_self xs
  | .obj xs => by simpa [Json.beq] using Json.beqFields_self xs

/-- `Json.beqList` is reflexive. -/
def Json.beqList_self : (xs : List Json) → Json.beqList xs xs = true
  | [] => rfl
  | x :: xs => by
      simpa [Json.beqList, Json.beq_self x] using Json.beqList_self xs

/-- `Json.beqFields` is reflexive. -/
def Json.beqFields_self : (xs : List (String × Json)) → Json.beqFields xs xs = true
  | [] => rfl
  | (k, v) :: xs => by
      simpa [Json.beqFields, Json.beq_self v] using Json.beqFields_self xs

end

mutual

/-- `Json.beq` is sound for equality. -/
def Json.eq_of_beq : (a b : Json) → Json.beq a b = true → a = b
  | .null, .null, _ => rfl
  | .bool a, .bool b, h => by simp [Json.beq] at h; rw [h]
  | .num a, .num b, h => by simp [Json.beq] at h; rw [h]
  | .str a, .str b, h => by simp [Json.beq] at h; rw [h]
  | .arr xs, .arr ys, h => by
      rw [Json.eqList_of_beq xs ys (by simpa [Json.beq] using h)]
  | .obj xs, .obj ys, h => by
      rw [Json.eqFields_of_beq xs ys (by simpa [Json.beq] using h)]
  | .null, .bool _, h | .null, .num _, h | .null, .str _, h
  | .null, .arr _, h | .null, .obj _, h
  | .bool _, .null, h | .bool _, .num _, h | .bool _, .str _, h
  | .bool _, .arr _, h | .bool _, .obj _, h
  | .num _, .null, h | .num _, .bool _, h | .num _, .str _, h
  | .num _, .arr _, h | .num _, .obj _, h
  | .str _, .null, h | .str _, .bool _, h | .str _, .num _, h
  | .str _, .arr _, h | .str _, .obj _, h
  | .arr _, .null, h | .arr _, .bool _, h | .arr _, .num _, h
  | .arr _, .str _, h | .arr _, .obj _, h
  | .obj _, .null, h | .obj _, .bool _, h | .obj _, .num _, h
  | .obj _, .str _, h | .obj _, .arr _, h => by simp [Json.beq] at h

/-- `Json.beqList` is sound for equality. -/
def Json.eqList_of_beq : (xs ys : List Json) → Json.beqList xs ys = true → xs = ys
  | [], [], _ => rfl
  | x :: xs, y :: ys, h => by
      have h1 : Json.beq x y = true ∧ Json.beqList xs ys = true := by
        simpa [Json.beqList] using h
      rw [Json.eq_of_beq x y h1.1, Json.eqList_of_beq xs ys h1.2]
  | [], _ :: _, h => by simp [Json.beqList] at h
  | _ :: _, [], h => by simp [Json.beqList] at h

/-- `Json.beqFields` is sound for equality. -/
def Json.eqFields_of_beq :
    (xs ys : List (String × Json)) → Json.beqFields xs ys = true → xs = ys
  | [], [], _ => rfl
  | (k, v) :: xs, (l, w) :: ys, h => by
      have h1 : (k == l) = true ∧ Json.beq v w = true ∧ Json.beqFields xs ys = true := by
        simpa [Json.beqFields, and_assoc] using h
      have hk : k = l := by simpa using h1.1
      rw [hk, Json.eq_of_beq v w h1.2.1, Json.eqFields_of_beq xs ys h1.2.2]
  | [], _ :: _, h => by simp [Json.beqFields] at h
  | _ :: _, [], h => by simp [Json.beqFields] at h

end

instance : DecidableEq Json := fun a b =>
  if h : Json.beq a b = true then isTrue (Json.eq_of_beq a b h)
  else isFalse (fun he => h (he ▸ Json.beq_self a))

namespace Json

/-- Python truthiness of a decoded JSON value. -/
def truthy : Json → Bool
  | .null => false
  | .bool b => b
  | .num n => n != 0
  | .str s => s != ""
  | .arr xs => !xs.isEmpty
  | .obj fs => !fs.isEmpty

/-- Python `d.get(k)`: `none` models the `AttributeError` raised when the
receiver is not a dict; a missing key yields `Json.null` (Python `None`). -/
def dget? (j : Json) (k : String) : Option Json :=
  match j with
  | .obj fs => some (((fs.find? (fun p => p.1 == k)).map Prod.snd).getD Json.null)
  | _ => none

/-- Python `d.get(k, default)`: `none` models the `AttributeError` raised when
the receiver is not a dict. -/
def dgetD? (j : Json) (k : String) (d : Json) : Option Json :=
  match j with
  | .obj fs => some (((fs.find? (fun p => p.1 == k)).map Prod.snd).getD d)
  | _ => none

/-- Python `k in d` for a decoded JSON value (`False` on non-dicts). -/
def hasKey (j : Json) (k : String) : Bool :=
  match j with
  | .obj fs => fs.any (fun p => p.1 == k)
  | _ => false

/-- Python `d[k]` on a dict, with `Json.null` for the (guarded-out) missing
case. -/
def index (j : Json) (k : String) : Json :=
  match j with
  | .obj fs => ((fs.find? (fun p => p.1 == k)).map Prod.snd).getD Json.null
  | _ => Json.null

end Json

/-- The comprehensive bundle assembled by `fetch_comprehensive_data`: a dict
with the five fixed keys `log`, `incident`, `service`, `actions`,
`related_logs`, initialised to `None`, `None`, `None`, `[]`, `[]`. -/
structure Bundle where
  log : Json := Json.null
  incident : Json := Json.null
  service : Json := Json.null
  actions : Json := Json.arr []
  related_logs : Json := Json.arr []
deriving DecidableEq, Inhabited

/-- The bundle as the JSON dict the Python code actually holds. -/
def Bundle.toJson (b : Bundle) : Json :=
  Json.obj [("log", b.log), ("incident", b.incident), ("service", b.service),
            ("actions", b.actions), ("related_logs", b.related_logs)]

/-- The emptiness test `not any(comprehensive_data.values())` used by
`_handle_comprehensive_analysis` to decide the 404 outcome. -/
def bundleNotAny (b : Bundle) : Bool :=
  !(b.log.truthy || b.incident.truthy || b.service.truthy ||
    b.actions.truthy || b.related_logs.truthy)

/-- Outcome of one awaited HTTP GET inside the aggregator: either a response
with a status code and decoded JSON body, or a raised exception (connection
error, timeout, undecodable body, ...). -/
inductive HopOutcome where
  | ok (status : Nat) (body : Json) : HopOutcome
  | exn : HopOutcome
deriving DecidableEq, Inhabited

/-- Environment fixing the outcome of each of the six backend requests that
`fetch_comprehensive_data` can issue, in source order. -/
structure FetchEnv where
  logResp : HopOutcome := .exn
  incidentsQueryResp : HopOutcome := .exn
  incidentResp : HopOutcome := .exn
  serviceResp : HopOutcome := .exn
  actionsResp : HopOutcome := .exn
  relatedLogsResp : HopOutcome := .exn
deriving Inhabited

/-- A backend request issued by the data-fetching layer, with the value
interpolated into its URL or query string. -/
inductive FetchCall where
  | getLog (id : Json) : FetchCall
  | queryIncidents (serviceName : Json) : FetchCall
  | getIncident (id : Json) : FetchCall
  | getService (id : Json) : FetchCall
  | getActions (incidentId : Json) : FetchCall
  | queryLogs (serviceId : Json) : FetchCall
  | stdFetch (source : String) (params : Json) : FetchCall
deriving DecidableEq

/-- Step 1-2 of `fetch_comprehensive_data`: the `if error_log_id:` block.
`Except.error` models an exception reaching the surrounding `try` (the
function then returns the bundle gathered so far); `Except.ok` carries the
bundle, the requests issued, and the working `incident_id` after the block
(which the block may overwrite). -/
def logHop (env : FetchEnv) (errorLogId incidentId : Json) (b : Bundle) :
    Except (Bundle × List FetchCall) (Bundle × List FetchCall × Json) :=
  if !errorLogId.truthy then .ok (b, [], incidentId)
  else
    match env.logResp with
    | .exn => .error (b, [.getLog errorLogId])
    | .ok s body =>
      if s == 200 then
        match body.dget? "data" with
        | none => .error (b, [.getLog errorLogId])
        | some logData =>
          let b1 : Bundle := { b with log := logData }
          match logData.dget? "service" with
          | none => .error (b1, [.getLog errorLogId])
          | some serviceName =>
            match env.incidentsQueryResp with
            | .exn => .error (b1, [.getLog errorLogId, .queryIncidents serviceName])
            | .ok s2 body2 =>
              if s2 == 200 then
                match body2.dgetD? "data" (Json.obj []) with
                | none => .error (b1, [.getLog errorLogId, .queryIncidents serviceName])
                | some incidentsData =>
                  match incidentsData.dgetD? "incidents" (Json.arr []) with
                  | none => .error (b1, [.getLog errorLogId, .queryIncidents serviceName])
                  | some incidents =>
                    if incidents.truthy then
                      match incidents with
                      | .arr (first :: _) =>
                        match first.dget? "id" with
                        | none => .error (b1, [.getLog errorLogId, .queryIncidents serviceName])
                        | some derived =>
                          .ok (b1, [.getLog errorLogId, .queryIncidents serviceName], derived)
                      | _ => .error (b1, [.getLog errorLogId, .queryIncidents serviceName])
                    else .ok (b1, [.getLog errorLogId, .queryIncidents serviceName], incidentId)
              else .ok (b1, [.getLog errorLogId, .queryIncidents serviceName], incidentId)
      else .ok (b, [.getLog errorLogId], incidentId)

/-- Step 4 of `fetch_comprehensive_data`: the `if service_id:` service fetch. -/
def serviceStep (env : FetchEnv) (serviceId : Json) (b : Bundle) :
    Except (Bundle × List FetchCall) (Bundle × List FetchCall) :=
  if !serviceId.truthy then .ok (b, [])
  else
    match env.serviceResp with
    | .exn => .error (b, [.getService serviceId])
    | .ok s body =>
      if s == 200 then
        match body.dget? "data" with
        | none => .error (b, [.getService serviceId])
        | some sv => .ok ({ b with service := sv }, [.getService serviceId])
      else .ok (b, [.getService serviceId])

/-- Step 5 of `fetch_comprehensive_data`: the unconditional actions fetch. -/
def actionsStep (env : FetchEnv) (incidentId : Json) (b : Bundle) :
    Except (Bundle × List FetchCall) (Bundle × List FetchCall) :=
  match env.actionsResp with
  | .exn => .error (b, [.getActions incidentId])
  | .ok s body =>
    if s == 200 then
      match body.dgetD? "data" (Json.obj []) with
      | none => .error (b, [.getActions incidentId])
      | some actionsData =>
        match actionsData.dgetD? "actions" (Json.arr []) with
        | none => .error (b, [.getActions incidentId])
        | some acts => .ok ({ b with actions := acts }, [.getActions incidentId])
    else .ok (b, [.getActions incidentId])

/-- Step 6 of `fetch_comprehensive_data`: the `if service_id:` related-logs
fetch. -/
def relatedLogsStep (env : FetchEnv) (serviceId : Json) (b : Bundle) :
    Except (Bundle × List FetchCall) (Bundle × List FetchCall) :=
  if !serviceId.truthy then .ok (b, [])
  else
    match env.relatedLogsResp with
    | .exn => .error (b, [.queryLogs serviceId])
    | .ok s body =>
      if s == 200 then
        match body.dgetD? "data" (Json.obj []) with
        | none => .error (b, [.queryLogs serviceId])
        | some logsData =>
          match logsData.dgetD? "logs" (Json.arr []) with
          | none => .error (b, [.queryLogs serviceId])
          | some logs => .ok ({ b with related_logs := logs }, [.queryLogs serviceId])
      else .ok (b, [.queryLogs serviceId])

/-- Step 3-6 of `fetch_comprehensive_data`: the `if incident_id:` block. -/
def incidentHop (env : FetchEnv) (incidentId : Json) (b : Bundle) :
    Except (Bundle × List FetchCall) (Bundle × List FetchCall) :=
  if !incidentId.truthy then .ok (b, [])
  else
    match env.incidentResp with
    | .exn => .error (b, [.getIncident incidentId])
    | .ok s body =>
      if s == 200 then
        match body.dget? "data" with
        | none => .error (b, [.getIncident incidentId])
        | some inc =>
          let b1 : Bundle := { b with incident := inc }
          match inc.dget? "serviceId" with
          | none => .error (b1, [.getIncident incidentId])
          | some serviceId =>
            match serviceStep env serviceId b1 with
            | .error (b2, t2) => .error (b2, .getIncident incidentId :: t2)
            | .ok (b2, t2) =>
              match actionsStep env incidentId b2 with
              | .error (b3, t3) => .error (b3, .getIncident incidentId :: (t2 ++ t3))
              | .ok (b3, t3) =>
                match relatedLogsStep env serviceId b3 with
                | .error (b4, t4) => .error (b4, .getIncident incidentId :: (t2 ++ t3 ++ t4))
                | .ok (b4, t4) => .ok (b4, .getIncident incidentId :: (t2 ++ t3 ++ t4))
    else .ok (b, [.getIncident incidentId])

/-- `fetch_comprehensive_data(error_log_id, incident_id)`: walks the chain
log → incidents-by-service → incident → service → actions → related logs.
Every path, including every exception path, returns the bundle gathered so
far (the surrounding `try`/`except` returns `comprehensive_data`), together
with the trace of backend requests issued. -/
def fetchComprehensiveData (env : FetchEnv) (errorLogId incidentId : Json) :
    Bundle × List FetchCall :=
  match logHop env errorLogId incidentId {} with
  | .error (b, t) => (b, t)
  | .ok (b, t, workingId) =>
    match incidentHop env workingId b with
    | .error (b2, t2) => (b2, t ++ t2)
    | .ok (b2, t2) => (b2, t ++ t2)

/-! ## Python string rendering and slicing -/

mutual

/-- Python `repr` of a decoded JSON value (the form used when such a value is
interpolated inside a container). -/
def pyRepr : Json → String
  | .null => "None"
  | .bool true => "True"
  | .bool false => "False"
  | .num n => toString n
  | .str s => "\x27" ++ s ++ "\x27"
  | .arr xs => "[" ++ pyReprList xs ++ "]"
  | .obj fs => "\x7b" ++ pyReprFields fs ++ "\x7d"

/-- Comma-separated `repr` of the elements of a Python list. -/
def pyReprList : List Json → String
  | [] => ""
  | [x] => pyRepr x
  | x :: xs => pyRepr x ++ ", " ++ pyReprList xs

/-- Comma-separated `repr` of the items of a Python dict. -/
def pyReprFields : List (String × Json) → String
  | [] => ""
  | [(k, v)] => "\x27" ++ k ++ "\x27: " ++ pyRepr v
  | (k, v) :: xs => "\x27" ++ k ++ "\x27: " ++ pyRepr v ++ ", " ++ pyReprFields xs

end

/-- Python `str()` of a decoded JSON value, as used by f-string
interpolation. -/
def pyStr : Json → String
  | .str s => s
  | j => pyRepr j

/-- Python string slicing `s[:n]`. -/
def pyTake (s : String) (n : Nat) : String :=
  String.mk (s.data.take n)

/-- Python `v[:n]`: slices strings and lists, raises `TypeError` (modelled as
`Except.error`) on anything else. -/
def pySliceE : Json → Nat → Except Unit Json
  | .str s, n => .ok (.str (pyTake s n))
  | .arr xs, n => .ok (.arr (xs.take n))
  | _, _ => .error ()

/-- Python `len(v)`: defined on strings, lists and dicts, raises otherwise. -/
def pyLenE : Json → Except Unit Nat
  | .str s => .ok s.length
  | .arr xs => .ok xs.length
  | .obj fs => .ok fs.length
  | _ => .error ()

/-- Python iteration over a value: lists yield elements, strings yield
one-character strings, dicts yield their keys; anything else raises. -/
def pyIterE : Json → Except Unit (List Json)
  | .arr xs => .ok xs
  | .str s => .ok (s.data.map (fun c => Json.str (String.mk [c])))
  | .obj fs => .ok (fs.map (fun p => Json.str p.1))
  | _ => .error ()

/-- Lift a Python `dict.get` result into the exception monad. -/
def toExc (o : Option Json) : Except Unit Json :=
  match o with
  | none => .error ()
  | some v => .ok v

/-! ## Prompt builder (`analyzer/prompts.py`) -/

/-- The fixed framing text of the comprehensive prompt, up to and including
the `**DATA PROVIDED:**` marker. -/
def comprehensiveHeader : String :=
  "You are an expert DevOps AI Agent with deep expertise in incident response, root cause analysis, and system reliability engineering.\n"
  ++ "\n"
  ++ "**MISSION: End-to-End Incident Analysis & Resolution**\n"
  ++ "\n"
  ++ "You have been provided with comprehensive data spanning the entire incident lifecycle:\n"
  ++ "- Error logs that triggered the issue\n"
  ++ "- Related incidents and their status\n"
  ++ "- Affected service configuration and health\n"
  ++ "- Actions already taken by the team\n"
  ++ "- Historical context from related logs\n"
  ++ "\n"
  ++ "**YOUR TASK:**\n"
  ++ "\n"
  ++ "1. **INCIDENT CHAIN ANALYSIS**\n"
  ++ "   - Trace the error from initial log entry through incident creation to current state\n"
  ++ "   - Identify if this is a recurring issue or a new problem\n"
  ++ "   - Determine the blast radius (how many services/users affected)\n"
  ++ "\n"
  ++ "2. **ROOT CAUSE DETERMINATION**\n"
  ++ "   - Analyze error patterns across related logs\n"
  ++ "   - Examine service configuration and deployment history\n"
  ++ "   - Review actions already attempted and their results\n"
  ++ "   - Identify the PRIMARY root cause (not just symptoms)\n"
  ++ "\n"
  ++ "3. **SEVERITY & IMPACT ASSESSMENT**\n"
  ++ "   - Critical: Service down, data loss risk, security breach\n"
  ++ "   - High: Major functionality impaired, performance degraded >50%\n"
  ++ "   - Medium: Minor functionality issues, some users affected\n"
  ++ "   - Low: Cosmetic issues, no user impact\n"
  ++ "\n"
  ++ "4. **RESOLUTION STRATEGY**\n"
  ++ "   - Immediate actions (stop the bleeding)\n"
  ++ "   - Short-term fixes (restore service)\n"
  ++ "   - Long-term preventive measures\n"
  ++ "   - Specific commands to run (if applicable)\n"
  ++ "\n"
  ++ "5. **LEARNING & PREVENTION**\n"
  ++ "   - What monitoring alerts should be added?\n"
  ++ "   - What architectural changes would prevent recurrence?\n"
  ++ "   - Should this trigger a post-mortem?\n"
  ++ "\n"
  ++ "**DATA PROVIDED:**\n"
  ++ "\n"

/-- The fixed closing instructions of the comprehensive prompt. -/
def comprehensiveFooter : String :=
  "\n"
  ++ "\n"
  ++ "**YOUR RESPONSE MUST INCLUDE:**\n"
  ++ "\n"
  ++ "## 🔴 SEVERITY: [Critical/High/Medium/Low]\n"
  ++ "\n"
  ++ "## 🔍 ROOT CAUSE ANALYSIS\n"
  ++ "[Detailed explanation of what\x27s causing the issue]\n"
  ++ "\n"
  ++ "## 💥 IMPACT ASSESSMENT\n"
  ++ "- Users Affected: \n"
  ++ "- Services Down: \n"
  ++ "- Data at Risk: \n"
  ++ "\n"
  ++ "## ⚡ IMMEDIATE ACTIONS REQUIRED\n"
  ++ "1. [Specific command or action]\n"
  ++ "2. [Specific command or action]\n"
  ++ "3. [Specific command or action]\n"
  ++ "\n"
  ++ "## 🔧 RESOLUTION STEPS\n"
  ++ "### Short-term Fix:\n"
  ++ "[Steps to restore service]\n"
  ++ "\n"
  ++ "### Long-term Solution:\n"
  ++ "[Steps to prevent recurrence]\n"
  ++ "\n"
  ++ "## 📊 RECOMMENDED COMMANDS\n"
  ++ "```bash\n"
  ++ "# Commands to run for diagnosis\n"
  ++ "[specific commands]\n"
  ++ "\n"
  ++ "# Commands to fix the issue\n"
  ++ "[specific commands]\n"
  ++ "```\n"
  ++ "\n"
  ++ "## 🛡️ PREVENTION STRATEGY\n"
  ++ "- Monitoring improvements\n"
  ++ "- Architecture changes\n"
  ++ "- Alert configurations\n"
  ++ "\n"
  ++ "## ✅ VERIFICATION STEPS\n"
  ++ "1. [How to verify the fix worked]\n"
  ++ "2. [What metrics to monitor]\n"
  ++ "\n"
  ++ "Be specific, actionable, and prioritize by urgency. Think like an SRE responding to a production incident.\n"

/-- The `**PRIMARY ERROR LOG:**` section, emitted only when the bundle's
`log` value is truthy.  The stack trace is sliced to its first 500
characters; a missing or falsy stack trace renders as `None`. -/
def logSection (log : Json) : Except Unit String :=
  if log.truthy then do
    let lvl ← toExc (log.dgetD? "level" (Json.str "N/A"))
    let svc ← toExc (log.dgetD? "service" (Json.str "N/A"))
    let msg ← toExc (log.dgetD? "message" (Json.str "N/A"))
    let ts ← toExc (log.dgetD? "timestamp" (Json.str "N/A"))
    let cond ← toExc (log.dget? "stackTrace")
    let traceStr ←
      if cond.truthy then do
        let tv ← toExc (log.dgetD? "stackTrace" (Json.str "N/A"))
        let sliced ← pySliceE tv 500
        pure (pyStr sliced)
      else pure "None"
    pure ("\n**PRIMARY ERROR LOG:**\n- Level: " ++ pyStr lvl ++ "\n- Service: "
      ++ pyStr svc ++ "\n- Message: " ++ pyStr msg ++ "\n- Timestamp: " ++ pyStr ts
      ++ "\n- Stack Trace: " ++ traceStr ++ "\n")
  else pure ""

/-- The `**RELATED INCIDENT:**` section. -/
def incidentSection (incident : Json) : Except Unit String :=
  if incident.truthy then do
    let i ← toExc (incident.dgetD? "id" (Json.str "N/A"))
    let t ← toExc (incident.dgetD? "title" (Json.str "N/A"))
    let sev ← toExc (incident.dgetD? "severity" (Json.str "N/A"))
    let st ← toExc (incident.dgetD? "status" (Json.str "N/A"))
    let d ← toExc (incident.dgetD? "description" (Json.str "N/A"))
    let rep ← toExc (incident.dgetD? "reportedAt" (Json.str "N/A"))
    let res ← toExc (incident.dgetD? "resolvedAt" (Json.str "N/A"))
    pure ("\n**RELATED INCIDENT:**\n- ID: " ++ pyStr i ++ "\n- Title: " ++ pyStr t
      ++ "\n- Severity: " ++ pyStr sev ++ "\n- Status: " ++ pyStr st
      ++ "\n- Description: " ++ pyStr d ++ "\n- Reported: " ++ pyStr rep
      ++ "\n- Resolved: " ++ pyStr res ++ "\n")
  else pure ""

/-- The `**AFFECTED SERVICE:**` section. -/
def serviceSection (service : Json) : Except Unit String :=
  if service.truthy then do
    let n ← toExc (service.dgetD? "name" (Json.str "N/A"))
    let st ← toExc (service.dgetD? "status" (Json.str "N/A"))
    let u ← toExc (service.dgetD? "url" (Json.str "N/A"))
    let hc ← toExc (service.dgetD? "healthCheckUrl" (Json.str "N/A"))
    let up ← toExc (service.dgetD? "updatedAt" (Json.str "N/A"))
    pure ("\n**AFFECTED SERVICE:**\n- Name: " ++ pyStr n ++ "\n- Status: " ++ pyStr st
      ++ "\n- URL: " ++ pyStr u ++ "\n- Health Check: " ++ pyStr hc
      ++ "\n- Last Updated: " ++ pyStr up ++ "\n")
  else pure ""

/-- One `Action {i}:` block of the actions section. -/
def renderAction (i : Nat) (a : Json) : Except Unit String := do
  let c ← toExc (a.dgetD? "commandRun" (Json.str "N/A"))
  let r ← toExc (a.dgetD? "result" (Json.str "N/A"))
  let t ← toExc (a.dgetD? "timestamp" (Json.str "N/A"))
  pure ("\nAction " ++ toString i ++ ":\n  - Command: " ++ pyStr c
    ++ "\n  - Result: " ++ pyStr r ++ "\n  - Timestamp: " ++ pyStr t ++ "\n")

/-- The `for i, action in enumerate(..., 1)` loop body of the actions
section. -/
def renderActions : Nat → List Json → Except Unit String
  | _, [] => pure ""
  | i, a :: rest => do
    let s ← renderAction i a
    let tail ← renderActions (i + 1) rest
    pure (s ++ tail)

/-- The `**ACTIONS ALREADY TAKEN**` section: header shows the full count,
but only the first five actions (`actions[:5]`) are rendered. -/
def actionsSection (actions : Json) : Except Unit String :=
  if actions.truthy then do
    let n ← pyLenE actions
    let sliced ← pySliceE actions 5
    let items ← pyIterE sliced
    let body ← renderActions 1 items
    pure ("\n**ACTIONS ALREADY TAKEN (" ++ toString n ++ " total):**\n" ++ body)
  else pure ""

/-- One `Log {i}: ...` line of the related-logs section; the message is
sliced to its first 100 characters and suffixed with `...`. -/
def renderRelatedLog (i : Nat) (lg : Json) : Except Unit String := do
  let lvl ← toExc (lg.dget? "level")
  let m ← toExc (lg.dgetD? "message" (Json.str "N/A"))
  let m2 ← pySliceE m 100
  pure ("\nLog " ++ toString i ++ ": [" ++ pyStr lvl ++ "] " ++ pyStr m2 ++ "...\n")

/-- The `for i, log in enumerate(..., 1)` loop body of the related-logs
section. -/
def renderRelatedLogs : Nat → List Json → Except Unit String
  | _, [] => pure ""
  | i, lg :: rest => do
    let s ← renderRelatedLog i lg
    let tail ← renderRelatedLogs (i + 1) rest
    pure (s ++ tail)

/-- The `**RELATED ERROR LOGS**` section: header shows the full count, but
only the first three logs (`related_logs[:3]`) are rendered. -/
def relatedLogsSection (relatedLogs : Json) : Except Unit String :=
  if relatedLogs.truthy then do
    let n ← pyLenE relatedLogs
    let sliced ← pySliceE relatedLogs 3
    let items ← pyIterE sliced
    let body ← renderRelatedLogs 1 items
    pure ("\n**RELATED ERROR LOGS (" ++ toString n ++ " found):**\n" ++ body)
  else pure ""

/-- The `if context:` block of the comprehensive prompt. -/
def contextSection (context : Option String) : String :=
  match context with
  | some c => if !c.isEmpty then "\n**ADDITIONAL CONTEXT:** " ++ c ++ "\n" else ""
  | none => ""

/-- `build_comprehensive_analysis_prompt(comprehensive_data, context)`.
Sections are appended in source order; a `TypeError`/`AttributeError` during
rendering surfaces as `Except.error`. -/
def buildComprehensiveAnalysisPrompt (b : Bundle) (context : Option String) :
    Except Unit String := do
  let s1 ← logSection b.log
  let s2 ← incidentSection b.incident
  let s3 ← serviceSection b.service
  let s4 ← actionsSection b.actions
  let s5 ← relatedLogsSection b.related_logs
  pure (comprehensiveHeader ++ s1 ++ s2 ++ s3 ++ s4 ++ s5
    ++ contextSection context ++ comprehensiveFooter)

/-- The fixed framing text of the standard prompt up to the first `{source}`
interpolation. -/
def standardIntroA : String :=
  "You are an expert DevOps AI Agent specializing in application reliability, performance optimization, and incident management.\n"
  ++ "\n"
  ++ "Your mission: Analyze the following "

/-- The fixed framing text of the standard prompt after the first `{source}`
interpolation. -/
def standardIntroB : String :=
  " data and provide actionable insights to help developers maintain robust, high-performing applications.\n"
  ++ "\n"
  ++ "**Analysis Framework:**\n"
  ++ "\n"
  ++ "1. **ASSESSMENT**\n"
  ++ "   - Scan for errors, warnings, anomalies, and performance degradation\n"
  ++ "   - Evaluate severity levels (Critical, High, Medium, Low)\n"
  ++ "   - Identify patterns and trends\n"
  ++ "\n"
  ++ "2. **ROOT CAUSE ANALYSIS**\n"
  ++ "   - Determine likely root causes for each issue\n"
  ++ "   - Consider common failure modes: resource exhaustion, configuration errors, code bugs, dependency failures, network issues\n"
  ++ "   - Look for cascading failures or systemic problems\n"
  ++ "\n"
  ++ "3. **IMPACT EVALUATION**\n"
  ++ "   - Assess impact on users, services, and business operations\n"
  ++ "   - Identify affected components and dependencies\n"
  ++ "\n"
  ++ "4. **RECOMMENDATIONS**\n"
  ++ "   - Provide specific, actionable remediation steps\n"
  ++ "   - Suggest preventive measures and monitoring improvements\n"
  ++ "   - Recommend infrastructure or code changes if applicable\n"
  ++ "   - Prioritize actions by urgency\n"
  ++ "\n"
  ++ "5. **HEALTH CHECK**\n"
  ++ "   - If no critical issues found, confirm system health status\n"
  ++ "   - Highlight any minor optimizations or best practices\n"
  ++ "\n"
  ++ "**Response Format:**\n"
  ++ "Structure your response with clear sections using markdown:\n"
  ++ "- 🔴 **Critical Issues**\n"
  ++ "- ⚠️ **Warnings & Anomalies**\n"
  ++ "- 🔍 **Root Cause Analysis**\n"
  ++ "- 💡 **Recommended Actions**\n"
  ++ "- 📊 **System Health Summary**\n"
  ++ "\n"

/-- `build_analysis_prompt(source, data, context)`: total (f-string
interpolation of `{data}` cannot raise). -/
def buildAnalysisPrompt (source : String) (data : Json) (context : Option String) :
    String :=
  standardIntroA ++ source ++ standardIntroB
  ++ (match context with
      | some c => if !c.isEmpty then "\n**Additional Context Provided:**\n" ++ c ++ "\n" else ""
      | none => "")
  ++ "\n**Data to Analyze (" ++ source ++ "):**\n```json\n" ++ pyStr data ++ "\n```\n"

/-! ## Backend gateway (`fetch_from_node_backend`) -/

/-- Envelope normalization of `fetch_from_node_backend`: unwrap a `data` key
when the body is a dict containing one; when the unwrapped value is itself a
dict and the source is one of the three paginated sources, return the value
under the source-name key (empty list when missing); otherwise return the
unwrapped value, or the raw body when there was no `data` key. -/
def normalizeEnvelope (source : String) (j : Json) : Json :=
  if j.hasKey "data" then
    let data := j.index "data"
    match data with
    | .obj gs =>
      if source == "logs" || source == "incidents" || source == "actions" then
        ((gs.find? (fun p => p.1 == source)).map Prod.snd).getD (Json.arr [])
      else .obj gs
    | _ => data
  else j

/-- A second rendering of the same normalization rule, phrased the way the
specification describes it, for the refinement comparison. -/
def normalizeEnvelopeSpec (source : String) (j : Json) : Json :=
  match j with
  | .obj fs =>
    match fs.find? (fun p => p.1 == "data") with
    | none => j
    | some p =>
      match p.2 with
      | .obj gs =>
        if source = "logs" ∨ source = "incidents" ∨ source = "actions" then
          match gs.find? (fun q => q.1 == source) with
          | some q => q.2
          | none => .arr []
        else .obj gs
      | v => v
  | _ => j

deriving instance DecidableEq for Except

/-- HTTP-level failure surfaced to the caller (FastAPI `HTTPException`). -/
structure HttpErr where
  status : Nat
  detail : String
deriving DecidableEq, Inhabited

/-- Outcome of the single backend GET performed by
`fetch_from_node_backend`. -/
inductive StdOutcome where
  | success (body : Json) : StdOutcome
  | statusError (code : Nat) (text : String) : StdOutcome
  | requestError (msg : String) : StdOutcome
  | otherError (msg : String) : StdOutcome
deriving DecidableEq, Inhabited

/-- Outcome of the Groq chat-completion call. -/
inductive GroqOutcome where
  | ok (text : String) : GroqOutcome
  | exn (msg : String) : GroqOutcome
deriving DecidableEq, Inhabited

/-- Metric events recorded by the orchestration layer, in order. -/
inductive MEvent where
  | aiReq (source status : String) : MEvent
  | aiDurationObs (source : String) : MEvent
  | groqCall (status : String) : MEvent
  | groqDurationObs : MEvent
  | activeInc : MEvent
  | activeDec : MEvent
  | dataFetchObs (endpoint : String) : MEvent
deriving DecidableEq

/-- The parameters of one Groq chat-completion request. -/
structure GroqParams where
  model : String
  system : String
  user : String
  temperature : ℚ
  maxTokens : Nat
deriving DecidableEq

/-- A network call issued while serving one analysis request: either a
backend data fetch or the Groq AI call. -/
inductive NetCall where
  | backend (c : FetchCall) : NetCall
  | groqChat (p : GroqParams) : NetCall
deriving DecidableEq

/-- `fetch_from_node_backend(source, filters)`: its single GET either
succeeds (body then normalized) or raises an `HTTPException` classifying the
failure.  The fetch-duration histogram is observed on every path. -/
def fetchFromNodeBackend (out : StdOutcome) (source : String) (params : Json) :
    Except HttpErr Json × List MEvent × List FetchCall :=
  match out with
  | .success body =>
      (.ok (normalizeEnvelope source body), [.dataFetchObs source], [.stdFetch source params])
  | .statusError code text =>
      (.error ⟨code, "Node backend error: " ++ text⟩,
       [.dataFetchObs source], [.stdFetch source params])
  | .requestError msg =>
      (.error ⟨503, "Failed to connect to Node backend: " ++ msg⟩,
       [.dataFetchObs source], [.stdFetch source params])
  | .otherError msg =>
      (.error ⟨500, "Unexpected error: " ++ msg⟩,
       [.dataFetchObs source], [.stdFetch source params])

/-! ## Analysis orchestrator (`perform_analysis`) -/

/-- The request body of `POST /analyze`. -/
structure AnalyzeRequest where
  source : String
  filters : Option (List (String × Json)) := none
  context : Option String := none
  deep_analysis : Bool := false

/-- The response envelope. -/
structure AnalysisResponse where
  timestamp : String
  source : String
  analysis : String
  data_analyzed : Json
  recommendations : Option (List String) := none
  related_data : Option Json := none
deriving DecidableEq

/-- `request.filters.get(k) if request.filters else None`. -/
def AnalyzeRequest.filterGet (req : AnalyzeRequest) (k : String) : Json :=
  match req.filters with
  | none => Json.null
  | some fs => ((fs.find? (fun p => p.1 == k)).map Prod.snd).getD Json.null

/-- The `params=filters or {}` value passed to the backend GET. -/
def AnalyzeRequest.paramsJson (req : AnalyzeRequest) : Json :=
  match req.filters with
  | none => Json.obj []
  | some fs => Json.obj fs

/-- A Python exception escaping a request handler: either an
`HTTPException` or any other exception (carrying its message). -/
inductive PyExn where
  | http (e : HttpErr) : PyExn
  | other (msg : String) : PyExn
deriving DecidableEq

/-- The full environment one `perform_analysis` call runs against. -/
structure Env where
  fetchEnv : FetchEnv
  stdOutcome : StdOutcome := .otherError "unused"
  clientConfigured : Bool
  groqOutcome : GroqOutcome := .exn "unused"
  now : String := "T"

def groqModelName : String := "llama-3.1-70b-versatile"

def groqSystemInstruction : String :=
  "You are an expert DevOps SRE and incident response specialist. Provide detailed, actionable analysis with specific commands and steps."

def groqTemperature : ℚ := 3 / 10

def groqMaxTokens : Nat := 3000

def analysisUnavailableMsg : String :=
  "⚠️ **AI Analysis Unavailable**\n\nGroq API key not configured. Data retrieved successfully."

def configureKeyRecommendation : String :=
  "Configure GROQ_API_KEY environment variable"

def badRequestDetail : String :=
  "For deep analysis, provide either \x27logId\x27 or \x27incidentId\x27 in filters"

def noDataFoundDetail : String := "No data found for the provided IDs"

def noDataAvailableDetail : String := "No data available for analysis"

/-- `_get_groq_analysis(prompt, source)`: one chat-completion call with the
fixed model, system instruction, temperature and token budget; a Groq
failure is re-raised as a plain exception. -/
def getGroqAnalysis (configured : Bool) (out : GroqOutcome) (prompt : String) :
    Except String String × List MEvent × List NetCall :=
  if !configured then (.error "Groq client not initialized", [], [])
  else
    let p : GroqParams :=
      ⟨groqModelName, groqSystemInstruction, prompt, groqTemperature, groqMaxTokens⟩
    match out with
    | .ok text => (.ok text, [.groqCall "success", .groqDurationObs], [.groqChat p])
    | .exn msg => (.error msg, [.groqCall "error", .groqDurationObs], [.groqChat p])

/-- `_handle_comprehensive_analysis(request)`: id extraction, the 400 guard,
the aggregation, the `not any(...)` 404 guard, and prompt building.
Returns `(data, related_data, prompt)` on success. -/
def handleComprehensiveAnalysis (env : Env) (req : AnalyzeRequest) :
    Except PyExn (Json × Option Json × String) × List MEvent × List NetCall :=
  let logId := req.filterGet "logId"
  let incidentId := req.filterGet "incidentId"
  if !logId.truthy && !incidentId.truthy then
    (.error (.http ⟨400, badRequestDetail⟩), [.aiReq req.source "error"], [])
  else
    let r := fetchComprehensiveData env.fetchEnv logId incidentId
    let calls := r.2.map NetCall.backend
    if bundleNotAny r.1 then
      (.error (.http ⟨404, noDataFoundDetail⟩), [.aiReq req.source "no_data"], calls)
    else
      match buildComprehensiveAnalysisPrompt r.1 req.context with
      | .error _ => (.error (.other "TypeError"), [], calls)
      | .ok prompt => (.ok (r.1.toJson, some r.1.toJson, prompt), [], calls)

/-- `_handle_standard_analysis(request)`: single-source fetch, the emptiness
404 guard, and standard prompt building.  Returns `(data, prompt)`. -/
def handleStandardAnalysis (env : Env) (req : AnalyzeRequest) :
    Except PyExn (Json × String) × List MEvent × List NetCall :=
  match fetchFromNodeBackend env.stdOutcome req.source req.paramsJson with
  | (res, evs, fcalls) =>
    let calls := fcalls.map NetCall.backend
    match res with
    | .error e => (.error (.http e), evs, calls)
    | .ok data =>
      if !data.truthy then
        (.error (.http ⟨404, noDataAvailableDetail⟩),
         evs ++ [.aiReq req.source "no_data"], calls)
      else (.ok (data, buildAnalysisPrompt req.source data req.context), evs, calls)

/-- The `source` field echoed in the response envelope. -/
def respSource (req : AnalyzeRequest) : String :=
  if req.deep_analysis then "comprehensive" else req.source

/-- The shared tail of `perform_analysis` after data gathering: the
AI-unconfigured short-circuit, otherwise the Groq call, the success counter
and the success envelope. -/
def finishAnalysis (env : Env) (req : AnalyzeRequest) (data : Json)
    (related : Option Json) (prompt : String) (evs : List MEvent)
    (calls : List NetCall) :
    Except PyExn AnalysisResponse × List MEvent × List NetCall :=
  if !env.clientConfigured then
    (.ok ⟨env.now, respSource req, analysisUnavailableMsg, data,
          some [configureKeyRecommendation], related⟩,
     evs ++ [.aiReq req.source "unavailable"], calls)
  else
    match getGroqAnalysis env.clientConfigured env.groqOutcome prompt with
    | (.error m, gevs, gcalls) => (.error (.other m), evs ++ gevs, calls ++ gcalls)
    | (.ok text, gevs, gcalls) =>
        (.ok ⟨env.now, respSource req, text, data, none, related⟩,
         evs ++ gevs ++ [.aiReq req.source "success", .aiDurationObs req.source],
         calls ++ gcalls)

/-- The body of the `try:` block of `perform_analysis`. -/
def performBody (env : Env) (req : AnalyzeRequest) :
    Except PyExn AnalysisResponse × List MEvent × List NetCall :=
  if req.deep_analysis || req.source == "comprehensive" then
    match handleComprehensiveAnalysis env req with
    | (.error e, evs, calls) => (.error e, evs, calls)
    | (.ok (data, related, prompt), evs, calls) =>
        finishAnalysis env req data related prompt evs calls
  else
    match handleStandardAnalysis env req with
    | (.error e, evs, calls) => (.error e, evs, calls)
    | (.ok (data, prompt), evs, calls) =>
        finishAnalysis env req data none prompt evs calls

/-- `perform_analysis(request)`: wraps the body with the in-flight gauge,
the `except HTTPException` / `except Exception` handlers (each of which
increments the error counter) and the `finally` block (gauge decrement and
duration observation on every path). -/
def performAnalysis (env : Env) (req : AnalyzeRequest) :
    Except HttpErr AnalysisResponse × List MEvent × List NetCall :=
  match performBody env req with
  | (.ok resp, evs, calls) =>
      (.ok resp, .activeInc :: (evs ++ [.activeDec, .aiDurationObs req.source]), calls)
  | (.error (.http e), evs, calls) =>
      (.error e,
       .activeInc :: (evs ++ [.aiReq req.source "error", .activeDec, .aiDurationObs req.source]),
       calls)
  | (.error (.other m), evs, calls) =>
      (.error ⟨500, "Analysis failed: " ++ m⟩,
       .activeInc :: (evs ++ [.aiReq req.source "error", .activeDec, .aiDurationObs req.source]),
       calls)

/-! ## Auxiliary lemmas -/

theorem isEmpty_eq_of_length_eq {α β : Type} {l1 : List α} {l2 : List β}
    (h : l1.length = l2.length) : l1.isEmpty = l2.isEmpty := by
  cases l1 <;> cases l2 <;> simp_all

theorem str_append_empty (s : String) : s ++ "" = s := by
  cases s with
  | mk data => show String.mk (data ++ []) = String.mk data; rw [List.append_nil]

/-- No Groq call hides among mapped backend calls. -/
theorem groqChat_not_mem_map_backend (p : GroqParams) (l : List FetchCall) :
    NetCall.groqChat p ∉ l.map NetCall.backend := by
  intro h
  rcases List.mem_map.mp h with ⟨c, _, hc⟩
  cases hc

/-- A JSON value is Python-falsy exactly when it is one of the six falsy
constants of the shapes this system produces. -/
def JsonFalsy (j : Json) : Prop :=
  j = Json.null ∨ j = Json.bool false ∨ j = Json.num 0 ∨ j = Json.str "" ∨
  j = Json.arr [] ∨ j = Json.obj []

theorem truthy_eq_false_iff (j : Json) : j.truthy = false ↔ JsonFalsy j := by
  cases j with
  | null => simp [Json.truthy, JsonFalsy]
  | bool b => cases b <;> simp [Json.truthy, JsonFalsy]
  | num n => simp [Json.truthy, JsonFalsy, bne_eq_false_iff_eq]
  | str s => simp [Json.truthy, JsonFalsy, bne_eq_false_iff_eq]
  | arr xs => cases xs <;> simp [Json.truthy, JsonFalsy]
  | obj fs => cases fs <;> simp [Json.truthy, JsonFalsy]

/-! ## C5: the bundle-emptiness predicate -/

/-- The emptiness predicate exactly as the claim states it: the three entity
fields are absent and the two sequence fields are empty. -/
def bundleEmptySpec (b : Bundle) : Prop :=
  b.log = Json.null ∧ b.incident = Json.null ∧ b.service = Json.null ∧
  b.actions = Json.arr [] ∧ b.related_logs = Json.arr []

/-- Aggregation environment in which the log endpoint answers 200 with an
empty `data` object and the incidents query answers 404. -/
def emptyObjLogEnv : FetchEnv :=
  { logResp := .ok 200 (Json.obj [("data", Json.obj [])]),
    incidentsQueryResp := .ok 404 Json.null }

/-- C5 counterexample: a reachable bundle (backend returns `{"data": {}}` for
the log) whose `log` field is a present empty object, not absent; the code's
`not any(...)` predicate is nonetheless true, so the claimed biconditional
fails. -/
theorem bundle_empty_predicate_counterexample :
    bundleNotAny (fetchComprehensiveData emptyObjLogEnv (Json.str "L1") Json.null).1 = true ∧
    ¬ bundleEmptySpec (fetchComprehensiveData emptyObjLogEnv (Json.str "L1") Json.null).1 := by
  have hb : (fetchComprehensiveData emptyObjLogEnv (Json.str "L1") Json.null).1 =
      { log := Json.obj [] } := by decide
  refine ⟨by decide, ?_⟩
  rw [hb]
  intro h
  exact absurd h.1 (by simp)

/-- C5 amended: the predicate deciding not-found is true iff every one of the
five bundle values is Python-falsy — absent (`None`), or an empty
object/array/string, zero, or `False`. -/
theorem bundle_empty_predicate_amended (b : Bundle) :
    bundleNotAny b = true ↔
      (JsonFalsy b.log ∧ JsonFalsy b.incident ∧ JsonFalsy b.service ∧
       JsonFalsy b.actions ∧ JsonFalsy b.related_logs) := by
  simp only [bundleNotAny, Bool.not_eq_true', Bool.or_eq_false_iff,
    ← truthy_eq_false_iff]
  tauto

/-! ## C9: envelope normalization of `fetch_from_node_backend` -/

/-- C9: the normalization performed by `fetch_from_node_backend` agrees with
the specification's description on every source and every JSON body. -/
theorem normalize_envelope_correct (source : String) (j : Json) :
    normalizeEnvelope source j = normalizeEnvelopeSpec source j := by
  cases j with
  | obj fs =>
    cases hf : fs.find? (fun p => p.1 == "data") with
    | none =>
      have hk : (Json.obj fs).hasKey "data" = false := by
        simp only [Json.hasKey, Bool.not_eq_true, List.any_eq_false]
        exact fun p hp => by simpa using List.find?_eq_none.mp hf p hp
      simp [normalizeEnvelope, normalizeEnvelopeSpec, hk, hf]
    | some pr =>
      have hk : (Json.obj fs).hasKey "data" = true := by
        simp only [Json.hasKey, List.any_eq_true]
        exact ⟨pr, List.mem_of_find?_eq_some hf, by simpa using List.find?_some hf⟩
      have hi : (Json.obj fs).index "data" = pr.2 := by
        simp [Json.index, hf]
      simp only [normalizeEnvelope, normalizeEnvelopeSpec, hk, hi, hf, if_true]
      cases hp : pr.2 with
      | obj gs =>
        by_cases hs : source = "logs" ∨ source = "incidents" ∨ source = "actions"
        · have hb : (source == "logs" || source == "incidents" || source == "actions") = true := by
            rcases hs with h | h | h <;> simp [h]
          simp only [hb, if_true, if_pos hs]
          cases hg : gs.find? (fun q => q.1 == source) <;> simp [hg]
        · have hb : (source == "logs" || source == "incidents" || source == "actions") = false := by
            push_neg at hs
            simp [hs.1, hs.2.1, hs.2.2]
          simp [hb, hs]
      | null => rfl
      | bool b => rfl
      | num n => rfl
      | str s => rfl
      | arr xs => rfl
  | null => rfl
  | bool b => rfl
  | num n => rfl
  | str s => rfl
  | arr xs => rfl

/-! ## C3: missing ids in comprehensive mode -/

/-- C3: a comprehensive request supplying neither `logId` nor `incidentId`
fails with a 400 `HTTPException` and issues no network call at all — no
aggregator hop, no gateway fetch and no Groq call. -/
theorem comp_missing_ids_bad_request (env : Env) (req : AnalyzeRequest)
    (hmode : req.deep_analysis = true ∨ req.source = "comprehensive")
    (hlog : (req.filterGet "logId").truthy = false)
    (hinc : (req.filterGet "incidentId").truthy = false) :
    (performAnalysis env req).1 = .error ⟨400, badRequestDetail⟩ ∧
    (performAnalysis env req).2.2 = [] := by
  have hcond : (req.deep_analysis || req.source == "comprehensive") = true := by
    rcases hmode with h | h <;> simp [h]
  simp [performAnalysis, performBody, handleComprehensiveAnalysis, hcond, hlog, hinc]

def badReqSampleEnv : Env := { fetchEnv := {}, clientConfigured := false }

def badReqSampleReq : AnalyzeRequest := { source := "comprehensive" }

/-- C3 witness: the concrete comprehensive request with no filters. -/
theorem comp_missing_ids_bad_request_witness :
    (performAnalysis badReqSampleEnv badReqSampleReq).1 = .error ⟨400, badRequestDetail⟩ ∧
    (performAnalysis badReqSampleEnv badReqSampleReq).2.2 = [] :=
  comp_missing_ids_bad_request badReqSampleEnv badReqSampleReq (Or.inr rfl)
    (by decide) (by decide)

/-! ## C10: terminal 4xx outcomes are counted twice -/

/-- C10: for a comprehensive request ending in bad-request, and for one
ending in not-found, the `ai_analysis_requests` counter is incremented twice
for the single request: once at the raise site (status `error` resp.
`no_data`) and once more with status `error` in the `except HTTPException`
handler. -/
theorem terminal_outcome_double_count (env1 env2 : Env) (req1 req2 : AnalyzeRequest)
    (hmode1 : req1.deep_analysis = true ∨ req1.source = "comprehensive")
    (hlog1 : (req1.filterGet "logId").truthy = false)
    (hinc1 : (req1.filterGet "incidentId").truthy = false)
    (hmode2 : req2.deep_analysis = true ∨ req2.source = "comprehensive")
    (hids2 : (req2.filterGet "logId").truthy = true ∨
             (req2.filterGet "incidentId").truthy = true)
    (hempty : bundleNotAny (fetchComprehensiveData env2.fetchEnv
      (req2.filterGet "logId") (req2.filterGet "incidentId")).1 = true) :
    (performAnalysis env1 req1).2.1 =
      [.activeInc, .aiReq req1.source "error", .aiReq req1.source "error",
       .activeDec, .aiDurationObs req1.source] ∧
    (performAnalysis env2 req2).2.1 =
      [.activeInc, .aiReq req2.source "no_data", .aiReq req2.source "error",
       .activeDec, .aiDurationObs req2.source] := by
  have hcond1 : (req1.deep_analysis || req1.source == "comprehensive") = true := by
    rcases hmode1 with h | h <;> simp [h]
  have hcond2 : (req2.deep_analysis || req2.source == "comprehensive") = true := by
    rcases hmode2 with h | h <;> simp [h]
  have hids2' : (!(req2.filterGet "logId").truthy && !(req2.filterGet "incidentId").truthy) = false := by
    rcases hids2 with h | h <;> simp [h]
  constructor
  · simp [performAnalysis, performBody, handleComprehensiveAnalysis, hcond1, hlog1, hinc1]
  · simp [performAnalysis, performBody, handleComprehensiveAnalysis, hcond2, hids2', hempty]

def notFoundSampleEnv : Env :=
  { fetchEnv := { incidentResp := .ok 404 Json.null }, clientConfigured := false }

def notFoundSampleReq : AnalyzeRequest :=
  { source := "comprehensive", filters := some [("incidentId", Json.str "I1")],
    deep_analysis := true }

/-- C10 witness: the bad-request sample and a comprehensive request whose
incident lookup finds nothing. -/
theorem terminal_outcome_double_count_witness :
    (performAnalysis badReqSampleEnv badReqSampleReq).2.1 =
      [.activeInc, .aiReq "comprehensive" "error", .aiReq "comprehensive" "error",
       .activeDec, .aiDurationObs "comprehensive"] ∧
    (performAnalysis notFoundSampleEnv notFoundSampleReq).2.1 =
      [.activeInc, .aiReq "comprehensive" "no_data", .aiReq "comprehensive" "error",
       .activeDec, .aiDurationObs "comprehensive"] :=
  terminal_outcome_double_count badReqSampleEnv notFoundSampleEnv
    badReqSampleReq notFoundSampleReq (Or.inr rfl) (by decide) (by decide)
    (Or.inr rfl) (Or.inr (by decide)) (by decide)

/-! ## C4: empty fetch results map to 404 with no AI call -/

/-- C4: in comprehensive mode an entirely-empty bundle yields a 404 failure
and no Groq call; in standard mode an empty/falsy normalized fetch result
yields a 404 failure with only the single gateway fetch on the wire — in
neither case is a success envelope returned. -/
theorem empty_fetch_not_found (envC envS : Env) (reqC reqS : AnalyzeRequest)
    (body : Json)
    (hmodeC : reqC.deep_analysis = true ∨ reqC.source = "comprehensive")
    (hidsC : (reqC.filterGet "logId").truthy = true ∨
             (reqC.filterGet "incidentId").truthy = true)
    (hempty : bundleNotAny (fetchComprehensiveData envC.fetchEnv
      (reqC.filterGet "logId") (reqC.filterGet "incidentId")).1 = true)
    (hdeepS : reqS.deep_analysis = false)
    (hsrcS : (reqS.source == "comprehensive") = false)
    (hout : envS.stdOutcome = .success body)
    (hdata : (normalizeEnvelope reqS.source body).truthy = false) :
    (performAnalysis envC reqC).1 = .error ⟨404, noDataFoundDetail⟩ ∧
    (∀ p, NetCall.groqChat p ∉ (performAnalysis envC reqC).2.2) ∧
    (performAnalysis envS reqS).1 = .error ⟨404, noDataAvailableDetail⟩ ∧
    (performAnalysis envS reqS).2.2 =
      [NetCall.backend (.stdFetch reqS.source reqS.paramsJson)] := by
  have hcondC : (reqC.deep_analysis || reqC.source == "comprehensive") = true := by
    rcases hmodeC with h | h <;> simp [h]
  have hcondS : (reqS.deep_analysis || reqS.source == "comprehensive") = false := by
    simp [hdeepS, hsrcS]
  have hidsC' : (!(reqC.filterGet "logId").truthy &&
      !(reqC.filterGet "incidentId").truthy) = false := by
    rcases hidsC with h | h <;> simp [h]
  refine ⟨?_, ?_, ?_, ?_⟩
  · simp [performAnalysis, performBody, handleComprehensiveAnalysis, hcondC, hidsC', hempty]
  · intro p
    have hcalls : (performAnalysis envC reqC).2.2 =
        (fetchComprehensiveData envC.fetchEnv (reqC.filterGet "logId")
          (reqC.filterGet "incidentId")).2.map NetCall.backend := by
      simp [performAnalysis, performBody, handleComprehensiveAnalysis, hcondC, hidsC', hempty]
    rw [hcalls]
    exact groqChat_not_mem_map_backend p _
  · simp [performAnalysis, performBody, handleStandardAnalysis, fetchFromNodeBackend,
      hcondS, hout, hdata]
  · simp [performAnalysis, performBody, handleStandardAnalysis, fetchFromNodeBackend,
      hcondS, hout, hdata]

def emptyStdSampleEnv : Env :=
  { fetchEnv := {}, stdOutcome := .success (Json.obj [("data", Json.arr [])]),
    clientConfigured := false }

def emptyStdSampleReq : AnalyzeRequest := { source := "logs" }

/-- C4 witness: a comprehensive request whose incident lookup finds nothing
and a standard `logs` request whose backend returns an empty page. -/
theorem empty_fetch_not_found_witness :
    (performAnalysis notFoundSampleEnv notFoundSampleReq).1 = .error ⟨404, noDataFoundDetail⟩ ∧
    (∀ p, NetCall.groqChat p ∉ (performAnalysis notFoundSampleEnv notFoundSampleReq).2.2) ∧
    (performAnalysis emptyStdSampleEnv emptyStdSampleReq).1 = .error ⟨404, noDataAvailableDetail⟩ ∧
    (performAnalysis emptyStdSampleEnv emptyStdSampleReq).2.2 =
      [NetCall.backend (.stdFetch "logs" (Json.obj []))] :=
  empty_fetch_not_found notFoundSampleEnv emptyStdSampleEnv notFoundSampleReq
    emptyStdSampleReq (Json.obj [("data", Json.arr [])]) (Or.inr rfl)
    (Or.inr (by decide)) (by decide) rfl (by decide) rfl (by decide)

/-! ## C6: degraded success when the AI client is unconfigured -/

/-- C6: with the Groq client unconfigured and a successful non-empty fetch,
`perform_analysis` returns a success envelope — never an error — whose
`analysis` is the fixed advisory text, whose `data_analyzed` is the fetched
data, and whose `recommendations` is exactly the one credential-configuration
entry; this holds in both comprehensive and standard mode. -/
theorem ai_unconfigured_degraded_success (envC envS : Env) (reqC reqS : AnalyzeRequest)
    (body : Json)
    (hconfC : envC.clientConfigured = false)
    (hconfS : envS.clientConfigured = false)
    (hmodeC : reqC.deep_analysis = true ∨ reqC.source = "comprehensive")
    (hidsC : (reqC.filterGet "logId").truthy = true ∨
             (reqC.filterGet "incidentId").truthy = true)
    (hnonempty : bundleNotAny (fetchComprehensiveData envC.fetchEnv
      (reqC.filterGet "logId") (reqC.filterGet "incidentId")).1 = false)
    (hprompt : ∃ p, buildComprehensiveAnalysisPrompt (fetchComprehensiveData envC.fetchEnv
      (reqC.filterGet "logId") (reqC.filterGet "incidentId")).1 reqC.context = .ok p)
    (hdeepS : reqS.deep_analysis = false)
    (hsrcS : (reqS.source == "comprehensive") = false)
    (hout : envS.stdOutcome = .success body)
    (hdata : (normalizeEnvelope reqS.source body).truthy = true) :
    (performAnalysis envC reqC).1 = .ok
      ⟨envC.now, respSource reqC, analysisUnavailableMsg,
        (fetchComprehensiveData envC.fetchEnv (reqC.filterGet "logId")
          (reqC.filterGet "incidentId")).1.toJson,
        some [configureKeyRecommendation],
        some (fetchComprehensiveData envC.fetchEnv (reqC.filterGet "logId")
          (reqC.filterGet "incidentId")).1.toJson⟩ ∧
    (performAnalysis envS reqS).1 = .ok
      ⟨envS.now, respSource reqS, analysisUnavailableMsg,
        normalizeEnvelope reqS.source body,
        some [configureKeyRecommendation], none⟩ := by
  have hcondC : (reqC.deep_analysis || reqC.source == "comprehensive") = true := by
    rcases hmodeC with h | h <;> simp [h]
  have hcondS : (reqS.deep_analysis || reqS.source == "comprehensive") = false := by
    simp [hdeepS, hsrcS]
  have hidsC' : (!(reqC.filterGet "logId").truthy &&
      !(reqC.filterGet "incidentId").truthy) = false := by
    rcases hidsC with h | h <;> simp [h]
  obtain ⟨prompt, hprompt⟩ := hprompt
  constructor
  · simp [performAnalysis, performBody, handleComprehensiveAnalysis, finishAnalysis,
      respSource, hcondC, hidsC', hnonempty, hprompt, hconfC]
  · simp [performAnalysis, performBody, handleStandardAnalysis, finishAnalysis,
      fetchFromNodeBackend, respSource, hcondS, hout, hdata, hconfS]

def degradedCompSampleEnv : Env :=
  { fetchEnv := { incidentResp := .ok 200 (Json.obj [("data",
      Json.obj [("serviceId", Json.null)])]), actionsResp := .ok 404 Json.null },
    clientConfigured := false }

def degradedCompSampleBundle : Bundle :=
  (fetchComprehensiveData degradedCompSampleEnv.fetchEnv
    (notFoundSampleReq.filterGet "logId") (notFoundSampleReq.filterGet "incidentId")).1

def nonEmptyStdSampleEnv : Env :=
  { fetchEnv := {},
    stdOutcome := .success (Json.obj [("data", Json.arr [Json.str "x"])]),
    clientConfigured := false }

/-- C6 witness: concrete runs of both modes against an unconfigured client. -/
theorem ai_unconfigured_degraded_success_witness :
    (performAnalysis degradedCompSampleEnv notFoundSampleReq).1 = .ok
      ⟨"T", "comprehensive", analysisUnavailableMsg, degradedCompSampleBundle.toJson,
        some [configureKeyRecommendation], some degradedCompSampleBundle.toJson⟩ ∧
    (performAnalysis nonEmptyStdSampleEnv emptyStdSampleReq).1 = .ok
      ⟨"T", "logs", analysisUnavailableMsg, Json.arr [Json.str "x"],
        some [configureKeyRecommendation], none⟩ := by
  have h := ai_unconfigured_degraded_success degradedCompSampleEnv nonEmptyStdSampleEnv
    notFoundSampleReq emptyStdSampleReq (Json.obj [("data", Json.arr [Json.str "x"])])
    rfl rfl (Or.inr rfl) (Or.inr (by decide)) (by decide) ⟨_, rfl⟩
    rfl (by decide) rfl (by decide)
  exact ⟨h.1, h.2⟩

/-! ## C2: hop-failure handling in `fetch_comprehensive_data` -/

/-- Aggregation environment where the log fetch raises but the incident
fetch would succeed. -/
def abortSampleEnv : FetchEnv :=
  { logResp := .exn,
    incidentResp := .ok 200 (Json.obj [("data", Json.obj [("serviceId", Json.null)])]),
    actionsResp := .ok 404 Json.null }

/-- C2 counterexample: with an exception at the log hop, the aggregation
returns immediately with the empty bundle and only the log request on the
wire — the incident hop is abandoned even though (as the second conjunct
shows by running the same environment without a log id) it would have
populated the bundle. -/
theorem hop_exception_abandons_rest_counterexample :
    fetchComprehensiveData abortSampleEnv (Json.str "L") (Json.str "I") =
      ({}, [.getLog (Json.str "L")]) ∧
    (fetchComprehensiveData abortSampleEnv Json.null (Json.str "I")).1.incident =
      Json.obj [("serviceId", Json.null)] := by
  constructor
  · rfl
  · rfl

/-- C2 amended: the aggregator always returns a bundle and never propagates
an error, but the failure handling differs by kind and by hop.  A hop that
raises an exception makes the function return the partially-filled bundle
gathered so far immediately, abandoning all remaining hops — shown for an
exception at the log hop (part A: nothing else runs), at the incident hop
(part C), and in the middle of the nested block at the actions hop (part E:
the incident and service already gathered are kept, the related-logs hop is
abandoned).  A hop that completes with a non-200 status contributes nothing
and only the steps not data-dependent on it still run: a non-200 log hop
leaves the supplied `incidentId` in place and the incident block runs as if
no log id had been given (part B), while a non-200 incident hop skips the
entire dependent service/actions/related-logs block (part D). -/
theorem hop_failure_policy_amended (envA envB envC envD envE : FetchEnv)
    (lidA iidA lidB iidB iidC iidD iidE : Json) (sB sD : Nat)
    (bodyB bodyD bodyE inc sid svBody sv : Json)
    (hA : envA.logResp = .exn) (hlidA : lidA.truthy = true)
    (hB : envB.logResp = .ok sB bodyB) (hsB : (sB == 200) = false)
    (hlidB : lidB.truthy = true)
    (hC : envC.incidentResp = .exn) (hiidC : iidC.truthy = true)
    (hD : envD.incidentResp = .ok sD bodyD) (hsD : (sD == 200) = false)
    (hiidD : iidD.truthy = true)
    (hiidE : iidE.truthy = true)
    (hE1 : envE.incidentResp = .ok 200 bodyE)
    (hE2 : bodyE.dget? "data" = some inc)
    (hE3 : inc.dget? "serviceId" = some sid)
    (hE4 : sid.truthy = true)
    (hE5 : envE.serviceResp = .ok 200 svBody)
    (hE6 : svBody.dget? "data" = some sv)
    (hE7 : envE.actionsResp = .exn) :
    fetchComprehensiveData envA lidA iidA = ({}, [.getLog lidA]) ∧
    fetchComprehensiveData envB lidB iidB =
      ((fetchComprehensiveData envB Json.null iidB).1,
        .getLog lidB :: (fetchComprehensiveData envB Json.null iidB).2) ∧
    fetchComprehensiveData envC Json.null iidC = ({}, [.getIncident iidC]) ∧
    fetchComprehensiveData envD Json.null iidD = ({}, [.getIncident iidD]) ∧
    fetchComprehensiveData envE Json.null iidE =
      ({ incident := inc, service := sv },
        [.getIncident iidE, .getService sid, .getActions iidE]) := by
  refine ⟨?_, ?_, ?_, ?_, ?_⟩
  · simp [fetchComprehensiveData, logHop, hA, hlidA]
  · have hlB : logHop envB lidB iidB {} = .ok ({}, [.getLog lidB], iidB) := by
      simp [logHop, hlidB, hB, hsB]
    have hlN : logHop envB Json.null iidB {} = .ok ({}, [], iidB) := by
      simp [logHop, Json.truthy]
    simp only [fetchComprehensiveData, hlB, hlN]
    cases hih : incidentHop envB iidB {} with
    | error r => cases r with | mk b t => simp
    | ok r => cases r with | mk b t => simp
  · have hl : logHop envC Json.null iidC {} = .ok ({}, [], iidC) := by
      simp [logHop, Json.truthy]
    simp [fetchComprehensiveData, hl, incidentHop, hiidC, hC]
  · have hl : logHop envD Json.null iidD {} = .ok ({}, [], iidD) := by
      simp [logHop, Json.truthy]
    simp [fetchComprehensiveData, hl, incidentHop, hiidD, hD, hsD]
  · have hl : logHop envE Json.null iidE {} = .ok ({}, [], iidE) := by
      simp [logHop, Json.truthy]
    have hsvc : serviceStep envE sid { incident := inc } =
        .ok ({ incident := inc, service := sv }, [.getService sid]) := by
      simp [serviceStep, hE4, hE5, hE6]
    have hact : actionsStep envE iidE { incident := inc, service := sv } =
        .error ({ incident := inc, service := sv }, [.getActions iidE]) := by
      simp [actionsStep, hE7]
    simp [fetchComprehensiveData, hl, incidentHop, hiidE, hE1, hE2, hE3, hsvc, hact]

def nonOkLogSampleEnv : FetchEnv :=
  { logResp := .ok 500 Json.null,
    incidentResp := .ok 200 (Json.obj [("data", Json.obj [("serviceId", Json.null)])]),
    actionsResp := .ok 404 Json.null }

def nonOkIncidentSampleEnv : FetchEnv :=
  { incidentResp := .ok 500 Json.null }

def actionsExnSampleEnv : FetchEnv :=
  { incidentResp := .ok 200 (Json.obj [("data", Json.obj [("serviceId", Json.str "S")])]),
    serviceResp := .ok 200 (Json.obj [("data", Json.obj [("name", Json.str "svc")])]),
    actionsResp := .exn }

/-- C2 witness: a raising log hop aborts with the empty bundle; a 500 log
hop degrades to nothing while the incident block still runs; a raising
incident hop and a 500 incident hop each stop after the incident request;
a raising actions hop returns the incident and service already gathered and
abandons the related-logs hop. -/
theorem hop_failure_policy_amended_witness :
    fetchComprehensiveData abortSampleEnv (Json.str "L") Json.null =
      ({}, [.getLog (Json.str "L")]) ∧
    fetchComprehensiveData nonOkLogSampleEnv (Json.str "L") (Json.str "I") =
      ((fetchComprehensiveData nonOkLogSampleEnv Json.null (Json.str "I")).1,
        .getLog (Json.str "L") ::
          (fetchComprehensiveData nonOkLogSampleEnv Json.null (Json.str "I")).2) ∧
    fetchComprehensiveData ({} : FetchEnv) Json.null (Json.str "I") =
      ({}, [.getIncident (Json.str "I")]) ∧
    fetchComprehensiveData nonOkIncidentSampleEnv Json.null (Json.str "I") =
      ({}, [.getIncident (Json.str "I")]) ∧
    fetchComprehensiveData actionsExnSampleEnv Json.null (Json.str "I") =
      ({ incident := Json.obj [("serviceId", Json.str "S")],
         service := Json.obj [("name", Json.str "svc")] },
        [.getIncident (Json.str "I"), .getService (Json.str "S"),
         .getActions (Json.str "I")]) :=
  hop_failure_policy_amended abortSampleEnv nonOkLogSampleEnv ({} : FetchEnv)
    nonOkIncidentSampleEnv actionsExnSampleEnv
    (Json.str "L") Json.null (Json.str "L") (Json.str "I") (Json.str "I")
    (Json.str "I") (Json.str "I") 500 500 Json.null Json.null
    (Json.obj [("data", Json.obj [("serviceId", Json.str "S")])])
    (Json.obj [("serviceId", Json.str "S")]) (Json.str "S")
    (Json.obj [("data", Json.obj [("name", Json.str "svc")])])
    (Json.obj [("name", Json.str "svc")])
    rfl (by decide) rfl (by decide) (by decide) rfl (by decide) rfl (by decide)
    (by decide) (by decide) rfl (by decide) (by decide) (by decide) rfl (by decide) rfl

/-! ## C1: precedence of a supplied incidentId over the derived one -/

/-- Aggregation environment in which the log hop succeeds and the incidents
query returns one incident with id `derived`. -/
def overwriteSampleEnv : FetchEnv :=
  { logResp := .ok 200 (Json.obj [("data", Json.obj [("service", Json.str "svc")])]),
    incidentsQueryResp := .ok 200 (Json.obj [("data", Json.obj [("incidents",
      Json.arr [Json.obj [("id", Json.str "derived")]])])]),
    incidentResp := .ok 404 Json.null }

/-- C1 counterexample: with both `logId` and `incidentId` supplied and a
successful log hop, the incident fetched is the derived `derived`, not the
supplied `I1` — the derived first result unconditionally overwrites the
caller's id. -/
theorem supplied_incident_id_ignored_counterexample :
    (fetchComprehensiveData overwriteSampleEnv (Json.str "L1") (Json.str "I1")).2 =
      [.getLog (Json.str "L1"), .queryIncidents (Json.str "svc"),
       .getIncident (Json.str "derived")] ∧
    FetchCall.getIncident (Json.str "I1") ∉
      (fetchComprehensiveData overwriteSampleEnv (Json.str "L1") (Json.str "I1")).2 := by
  refine ⟨by rfl, ?_⟩
  intro h
  have : (fetchComprehensiveData overwriteSampleEnv (Json.str "L1") (Json.str "I1")).2 =
      [.getLog (Json.str "L1"), .queryIncidents (Json.str "svc"),
       .getIncident (Json.str "derived")] := by rfl
  rw [this] at h
  simp at h

/-- The trace component of a step result. -/
def exTrace (r : Except (Bundle × List FetchCall) (Bundle × List FetchCall)) :
    List FetchCall :=
  match r with
  | .error (_, t) => t
  | .ok (_, t) => t

/-- The incident id a call fetches, when it is an incident fetch. -/
def FetchCall.incidentTarget? : FetchCall → Option Json
  | .getIncident j => some j
  | _ => none

theorem serviceStep_no_incident_fetch (env : FetchEnv) (sid : Json) (b : Bundle)
    (c : FetchCall) (h : c ∈ exTrace (serviceStep env sid b)) :
    c.incidentTarget? = none := by
  unfold serviceStep at h
  repeat' split at h
  all_goals simp [exTrace] at h
  all_goals simp [h, FetchCall.incidentTarget?]

theorem actionsStep_no_incident_fetch (env : FetchEnv) (iid : Json) (b : Bundle)
    (c : FetchCall) (h : c ∈ exTrace (actionsStep env iid b)) :
    c.incidentTarget? = none := by
  unfold actionsStep at h
  repeat' split at h
  all_goals simp [exTrace] at h
  all_goals simp [h, FetchCall.incidentTarget?]

theorem relatedLogsStep_no_incident_fetch (env : FetchEnv) (sid : Json) (b : Bundle)
    (c : FetchCall) (h : c ∈ exTrace (relatedLogsStep env sid b)) :
    c.incidentTarget? = none := by
  unfold relatedLogsStep at h
  repeat' split at h
  all_goals simp [exTrace] at h
  all_goals simp [h, FetchCall.incidentTarget?]

theorem incidentHop_trace_head (env : FetchEnv) (iid : Json) (b : Bundle)
    (h : iid.truthy = true) :
    ∃ rest, exTrace (incidentHop env iid b) = .getIncident iid :: rest := by
  unfold incidentHop
  simp only [h, Bool.not_true]
  repeat' split
  all_goals first | exact ⟨_, rfl⟩ | simp_all

theorem incidentHop_only_fetches_working_id (env : FetchEnv) (iid : Json) (b : Bundle)
    (c : FetchCall) (h : c ∈ exTrace (incidentHop env iid b)) :
    c.incidentTarget? = none ∨ c = .getIncident iid := by
  by_cases hi : iid.truthy = true
  · rcases henv : env.incidentResp with ⟨s, body⟩ | _
    · by_cases hs : (s == 200) = true
      · rcases hd : body.dget? "data" with _ | inc
        · simp only [incidentHop, hi, Bool.not_true, henv, hs, hd, if_false, if_true,
            Bool.false_eq_true, reduceIte, exTrace] at h
          simp [h, FetchCall.incidentTarget?] at h ⊢
          simp [h]
        · rcases hsid : inc.dget? "serviceId" with _ | sid
          · simp only [incidentHop, hi, Bool.not_true, henv, hs, hd, hsid,
              Bool.false_eq_true, reduceIte, exTrace] at h
            simp at h
            simp [h]
          · rcases hss : serviceStep env sid { b with incident := inc } with r2 | r2 <;>
              rcases r2 with ⟨b2, t2⟩
            · simp only [incidentHop, hi, Bool.not_true, henv, hs, hd, hsid, hss,
                Bool.false_eq_true, reduceIte, exTrace] at h
              simp at h
              rcases h with rfl | hmem
              · right; rfl
              · left
                exact serviceStep_no_incident_fetch env sid _ c (by rw [hss]; exact hmem)
            · rcases has : actionsStep env iid b2 with r3 | r3 <;> rcases r3 with ⟨b3, t3⟩
              · simp only [incidentHop, hi, Bool.not_true, henv, hs, hd, hsid, hss, has,
                  Bool.false_eq_true, reduceIte, exTrace] at h
                simp at h
                rcases h with rfl | hmem | hmem
                · right; rfl
                · left
                  exact serviceStep_no_incident_fetch env sid _ c (by rw [hss]; exact hmem)
                · left
                  exact actionsStep_no_incident_fetch env iid _ c (by rw [has]; exact hmem)
              · rcases hrl : relatedLogsStep env sid b3 with r4 | r4 <;> rcases r4 with ⟨b4, t4⟩
                all_goals
                  simp only [incidentHop, hi, Bool.not_true, henv, hs, hd, hsid, hss, has, hrl,
                    Bool.false_eq_true, reduceIte, exTrace] at h
                all_goals simp at h
                all_goals
                  rcases h with rfl | hmem | hmem | hmem
                all_goals
                  first
                  | (right; rfl)
                  | (left;
                     exact serviceStep_no_incident_fetch env sid _ c (by rw [hss]; exact hmem))
                  | (left;
                     exact actionsStep_no_incident_fetch env iid _ c (by rw [has]; exact hmem))
                  | (left;
                     exact relatedLogsStep_no_incident_fetch env sid _ c (by rw [hrl]; exact hmem))
      · simp only [incidentHop, hi, Bool.not_true, henv, hs, Bool.false_eq_true,
          reduceIte, exTrace] at h
        simp at h
        simp [h]
    · simp only [incidentHop, hi, Bool.not_true, henv, exTrace] at h
      simp at h
      simp [h]
  · simp only [incidentHop, Bool.not_eq_true] at hi
    simp only [incidentHop, hi, Bool.not_false, if_true, exTrace] at h
    simp at h

/-- C1 amended: when the log hop completes — the log fetch returns 200 with
a dict body, the incidents query returns 200 and a non-empty incidents list
whose first element carries a truthy id — that derived id unconditionally
overwrites any caller-supplied `incidentId`: the incident hop fetches the
derived id, and no other id is ever fetched as an incident. -/
theorem derived_incident_id_precedence (env : FetchEnv)
    (lid iid body ld sn b2 idata a0 d : Json) (t : List Json)
    (h1 : lid.truthy = true)
    (h2 : env.logResp = .ok 200 body)
    (h3 : body.dget? "data" = some ld)
    (h4 : ld.dget? "service" = some sn)
    (h5 : env.incidentsQueryResp = .ok 200 b2)
    (h6 : b2.dgetD? "data" (Json.obj []) = some idata)
    (h7 : idata.dgetD? "incidents" (Json.arr []) = some (Json.arr (a0 :: t)))
    (h8 : a0.dget? "id" = some d)
    (h9 : d.truthy = true) :
    (∃ rest, (fetchComprehensiveData env lid iid).2 =
      .getLog lid :: .queryIncidents sn :: .getIncident d :: rest) ∧
    ∀ j, FetchCall.getIncident j ∈ (fetchComprehensiveData env lid iid).2 → j = d := by
  have hlog : logHop env lid iid {} =
      .ok ({ log := ld }, [.getLog lid, .queryIncidents sn], d) := by
    have hq : (Json.arr (a0 :: t)).truthy = true := by simp [Json.truthy]
    simp [logHop, h1, h2, h3, h4, h5, h6, h7, h8, hq]
  have htr : (fetchComprehensiveData env lid iid).2 =
      [.getLog lid, .queryIncidents sn] ++ exTrace (incidentHop env d { log := ld }) := by
    simp only [fetchComprehensiveData, hlog]
    cases hih : incidentHop env d { log := ld } with
    | error r => cases r with | mk b t => simp [exTrace]
    | ok r => cases r with | mk b t => simp [exTrace]
  obtain ⟨rest, hrest⟩ := incidentHop_trace_head env d { log := ld } h9
  constructor
  · exact ⟨rest, by rw [htr, hrest]; rfl⟩
  · intro j hj
    rw [htr] at hj
    rcases List.mem_append.mp hj with hj | hj
    · simp at hj
    · rcases incidentHop_only_fetches_working_id env d _ _ hj with hnone | heq
      · simp [FetchCall.incidentTarget?] at hnone
      · exact FetchCall.getIncident.inj heq

/-- C1 witness: in the overwrite environment with both ids supplied, the
incident hop fetches `derived`, never the supplied `I1`. -/
theorem derived_incident_id_precedence_witness :
    (∃ rest, (fetchComprehensiveData overwriteSampleEnv (Json.str "L1") (Json.str "I1")).2 =
      .getLog (Json.str "L1") :: .queryIncidents (Json.str "svc") ::
      .getIncident (Json.str "derived") :: rest) ∧
    ∀ j, FetchCall.getIncident j ∈
        (fetchComprehensiveData overwriteSampleEnv (Json.str "L1") (Json.str "I1")).2 →
      j = Json.str "derived" :=
  derived_incident_id_precedence overwriteSampleEnv
    (Json.str "L1") (Json.str "I1")
    (Json.obj [("data", Json.obj [("service", Json.str "svc")])])
    (Json.obj [("service", Json.str "svc")])
    (Json.str "svc")
    (Json.obj [("data", Json.obj [("incidents",
      Json.arr [Json.obj [("id", Json.str "derived")]])])])
    (Json.obj [("incidents", Json.arr [Json.obj [("id", Json.str "derived")]])])
    (Json.obj [("id", Json.str "derived")])
    (Json.str "derived") []
    (by decide) rfl (by decide) (by decide) rfl (by decide) (by decide) (by decide) (by decide)

/-! ## C8: the Groq call parameters -/

def groqStdSampleEnv : Env :=
  { fetchEnv := {}, stdOutcome := .success (Json.obj [("data", Json.arr [Json.str "x"])]),
    clientConfigured := true, groqOutcome := .ok "OUT" }

def groqCompSampleEnv : Env :=
  { fetchEnv := { incidentResp := .ok 200 (Json.obj [("data",
      Json.obj [("serviceId", Json.null)])]), actionsResp := .ok 404 Json.null },
    clientConfigured := true, groqOutcome := .ok "OUT" }

def stdSamplePrompt : String := buildAnalysisPrompt "logs" (Json.arr [Json.str "x"]) none

def compSampleBundle : Bundle :=
  (fetchComprehensiveData groqCompSampleEnv.fetchEnv
    (notFoundSampleReq.filterGet "logId") (notFoundSampleReq.filterGet "incidentId")).1

def compSamplePrompt : String :=
  (buildComprehensiveAnalysisPrompt compSampleBundle none).toOption.getD ""

/-- C8 counterexample: a standard-mode run and a comprehensive-mode run both
call Groq with the same `max_tokens = 3000` budget — the standard budget is
not strictly smaller than the comprehensive one. -/
theorem same_token_budget_counterexample :
    (performAnalysis groqStdSampleEnv emptyStdSampleReq).2.2 =
      [.backend (.stdFetch "logs" (Json.obj [])),
       .groqChat ⟨groqModelName, groqSystemInstruction, stdSamplePrompt,
         groqTemperature, groqMaxTokens⟩] ∧
    (performAnalysis groqCompSampleEnv notFoundSampleReq).2.2 =
      [.backend (.getIncident (Json.str "I1")), .backend (.getActions (Json.str "I1")),
       .groqChat ⟨groqModelName, groqSystemInstruction, compSamplePrompt,
         groqTemperature, groqMaxTokens⟩] ∧
    groqMaxTokens = 3000 ∧ ¬ (groqMaxTokens < groqMaxTokens) := by
  refine ⟨rfl, rfl, rfl, by simp⟩

theorem handleComprehensive_calls_backend (env : Env) (req : AnalyzeRequest) :
    ∃ l : List FetchCall, (handleComprehensiveAnalysis env req).2.2 = l.map NetCall.backend := by
  simp only [handleComprehensiveAnalysis]
  by_cases hc : (!(req.filterGet "logId").truthy &&
      !(req.filterGet "incidentId").truthy) = true
  · exact ⟨[], by rw [if_pos hc]; rfl⟩
  · refine ⟨(fetchComprehensiveData env.fetchEnv (req.filterGet "logId")
      (req.filterGet "incidentId")).2, ?_⟩
    rw [if_neg hc]
    split
    · rfl
    · split <;> rfl

theorem handleStandard_calls_backend (env : Env) (req : AnalyzeRequest) :
    ∃ l : List FetchCall, (handleStandardAnalysis env req).2.2 = l.map NetCall.backend := by
  refine ⟨[.stdFetch req.source req.paramsJson], ?_⟩
  cases ho : env.stdOutcome with
  | success body =>
    simp only [handleStandardAnalysis, fetchFromNodeBackend, ho]
    split <;> rfl
  | statusError c t => simp [handleStandardAnalysis, fetchFromNodeBackend, ho]
  | requestError m => simp [handleStandardAnalysis, fetchFromNodeBackend, ho]
  | otherError m => simp [handleStandardAnalysis, fetchFromNodeBackend, ho]

theorem finishAnalysis_groq_ok (env : Env) (req : AnalyzeRequest) (data : Json)
    (related : Option Json) (prompt : String) (evs : List MEvent)
    (calls0 : List NetCall) (t : String)
    (hconf : env.clientConfigured = true) (hg : env.groqOutcome = .ok t) :
    finishAnalysis env req data related prompt evs calls0 =
      (.ok ⟨env.now, respSource req, t, data, none, related⟩,
       evs ++ [.groqCall "success", .groqDurationObs, .aiReq req.source "success",
         .aiDurationObs req.source],
       calls0 ++ [.groqChat ⟨groqModelName, groqSystemInstruction, prompt,
         groqTemperature, groqMaxTokens⟩]) := by
  simp [finishAnalysis, getGroqAnalysis, hconf, hg]

/-- C8 amended: in every run that reaches Groq and succeeds, the call uses
the fixed model, fixed system instruction, fixed temperature 0.3 and the
same fixed 3000-token output budget in both modes, and the model's returned
text is placed verbatim in the response's `analysis` field. -/
theorem groq_call_fixed_parameters (env : Env) (req : AnalyzeRequest)
    (p : GroqParams) (t : String) (resp : AnalysisResponse)
    (hmem : NetCall.groqChat p ∈ (performAnalysis env req).2.2)
    (hconf : env.clientConfigured = true)
    (hg : env.groqOutcome = .ok t)
    (hres : (performAnalysis env req).1 = .ok resp) :
    p.model = groqModelName ∧ p.system = groqSystemInstruction ∧
    p.temperature = groqTemperature ∧ p.maxTokens = groqMaxTokens ∧
    resp.analysis = t := by
  rcases hhb : performBody env req with ⟨res, evs, calls⟩
  cases res with
  | error e =>
    rcases e with e | m <;> simp [performAnalysis, hhb] at hres
  | ok r =>
    have h1 : (performAnalysis env req).1 = .ok r := by simp [performAnalysis, hhb]
    have hcalls : (performAnalysis env req).2.2 = calls := by simp [performAnalysis, hhb]
    have hr : r = resp := by
      rw [h1] at hres
      exact Except.ok.inj hres
    subst hr
    rw [hcalls] at hmem
    unfold performBody at hhb
    by_cases hm : (req.deep_analysis || req.source == "comprehensive") = true
    · rw [if_pos hm] at hhb
      rcases hhc : handleComprehensiveAnalysis env req with ⟨res2, evs2, calls2⟩
      rw [hhc] at hhb
      cases res2 with
      | error e2 => simp at hhb
      | ok trip =>
        rcases trip with ⟨data, related, prompt⟩
        simp only [] at hhb
        rw [finishAnalysis_groq_ok env req data related prompt evs2 calls2 t hconf hg] at hhb
        have hcallsEq : calls2 ++ [NetCall.groqChat ⟨groqModelName, groqSystemInstruction,
            prompt, groqTemperature, groqMaxTokens⟩] = calls := congrArg (fun x => x.2.2) hhb
        have hrEq : Except.ok (ε := PyExn) (AnalysisResponse.mk env.now (respSource req) t
            data none related) = Except.ok r := congrArg (fun x => x.1) hhb
        have hrv : AnalysisResponse.mk env.now (respSource req) t data none related = r :=
          Except.ok.inj hrEq
        rw [← hcallsEq] at hmem
        rcases List.mem_append.mp hmem with hin | hin
        · obtain ⟨l, hl⟩ := handleComprehensive_calls_backend env req
          rw [hhc] at hl
          simp only [] at hl
          rw [hl] at hin
          exact absurd hin (groqChat_not_mem_map_backend p l)
        · have hp : NetCall.groqChat p = NetCall.groqChat ⟨groqModelName,
              groqSystemInstruction, prompt, groqTemperature, groqMaxTokens⟩ := by
            simpa using hin
          have hpv := NetCall.groqChat.inj hp
          subst hpv
          refine ⟨rfl, rfl, rfl, rfl, ?_⟩
          rw [← hrv]
    · rw [if_neg hm] at hhb
      rcases hhs : handleStandardAnalysis env req with ⟨res2, evs2, calls2⟩
      rw [hhs] at hhb
      cases res2 with
      | error e2 => simp at hhb
      | ok pair =>
        rcases pair with ⟨data, prompt⟩
        simp only [] at hhb
        rw [finishAnalysis_groq_ok env req data none prompt evs2 calls2 t hconf hg] at hhb
        have hcallsEq : calls2 ++ [NetCall.groqChat ⟨groqModelName, groqSystemInstruction,
            prompt, groqTemperature, groqMaxTokens⟩] = calls := congrArg (fun x => x.2.2) hhb
        have hrEq : Except.ok (ε := PyExn) (AnalysisResponse.mk env.now (respSource req) t
            data none none) = Except.ok r := congrArg (fun x => x.1) hhb
        have hrv : AnalysisResponse.mk env.now (respSource req) t data none none = r :=
          Except.ok.inj hrEq
        rw [← hcallsEq] at hmem
        rcases List.mem_append.mp hmem with hin | hin
        · obtain ⟨l, hl⟩ := handleStandard_calls_backend env req
          rw [hhs] at hl
          simp only [] at hl
          rw [hl] at hin
          exact absurd hin (groqChat_not_mem_map_backend p l)
        · have hp : NetCall.groqChat p = NetCall.groqChat ⟨groqModelName,
              groqSystemInstruction, prompt, groqTemperature, groqMaxTokens⟩ := by
            simpa using hin
          have hpv := NetCall.groqChat.inj hp
          subst hpv
          refine ⟨rfl, rfl, rfl, rfl, ?_⟩
          rw [← hrv]

/-- C8 witness: the standard-mode sample run, whose Groq call carries the
fixed parameters and whose response echoes the model text verbatim. -/
theorem groq_call_fixed_parameters_witness :
    (⟨groqModelName, groqSystemInstruction, stdSamplePrompt, groqTemperature,
      groqMaxTokens⟩ : GroqParams).model = groqModelName ∧
    (⟨groqModelName, groqSystemInstruction, stdSamplePrompt, groqTemperature,
      groqMaxTokens⟩ : GroqParams).system = groqSystemInstruction ∧
    (⟨groqModelName, groqSystemInstruction, stdSamplePrompt, groqTemperature,
      groqMaxTokens⟩ : GroqParams).temperature = groqTemperature ∧
    (⟨groqModelName, groqSystemInstruction, stdSamplePrompt, groqTemperature,
      groqMaxTokens⟩ : GroqParams).maxTokens = groqMaxTokens ∧
    (⟨"T", "logs", "OUT", Json.arr [Json.str "x"], none, none⟩ :
      AnalysisResponse).analysis = "OUT" :=
  groq_call_fixed_parameters groqStdSampleEnv emptyStdSampleReq
    ⟨groqModelName, groqSystemInstruction, stdSamplePrompt, groqTemperature, groqMaxTokens⟩
    "OUT" ⟨"T", "logs", "OUT", Json.arr [Json.str "x"], none, none⟩
    (by
      have h : (performAnalysis groqStdSampleEnv emptyStdSampleReq).2.2 =
          [.backend (.stdFetch "logs" (Json.obj [])),
           .groqChat ⟨groqModelName, groqSystemInstruction, stdSamplePrompt,
             groqTemperature, groqMaxTokens⟩] := rfl
      rw [h]
      simp)
    rfl rfl rfl

/-! ## C7: truncation behaviour of the comprehensive prompt builder -/

theorem exc_bind_ok {ε α β : Type} (a : α) (f : α → Except ε β) :
    (Except.ok a >>= f : Except ε β) = f a := rfl

theorem exc_map_ok {ε α β : Type} (f : α → β) (a : α) :
    (f <$> (Except.ok a : Except ε α) : Except ε β) = .ok (f a) := rfl

theorem exc_pure {ε α : Type} (a : α) : (pure a : Except ε α) = .ok a := rfl

theorem actionsSection_take5 (acts1 acts2 : List Json)
    (h5 : acts1.take 5 = acts2.take 5) (hlen : acts1.length = acts2.length) :
    actionsSection (Json.arr acts1) = actionsSection (Json.arr acts2) := by
  have he : acts1.isEmpty = acts2.isEmpty := isEmpty_eq_of_length_eq hlen
  simp only [actionsSection, Json.truthy, pyLenE, pySliceE, pyIterE, he, hlen, h5]

theorem relatedLogsSection_take3 (ls1 ls2 : List Json)
    (h3 : ls1.take 3 = ls2.take 3) (hlen : ls1.length = ls2.length) :
    relatedLogsSection (Json.arr ls1) = relatedLogsSection (Json.arr ls2) := by
  have he : ls1.isEmpty = ls2.isEmpty := isEmpty_eq_of_length_eq hlen
  simp only [relatedLogsSection, Json.truthy, pyLenE, pySliceE, pyIterE, he, hlen, h3]

/-- C7: the comprehensive prompt renders at most the first 5 actions and at
most the first 3 related logs (it depends on those sequences only through
their length, shown in the header, and their 5- resp. 3-element prefix);
each related-log message is rendered as its 100-character prefix; the stack
trace is rendered as its 500-character prefix, so a 1000-character trace
yields exactly a 500-character segment; and an entirely empty bundle yields
just the fixed frame, with every data section omitted. -/
theorem comprehensive_prompt_truncation :
    (∀ (b : Bundle) (acts1 acts2 : List Json) (ctx : Option String),
      acts1.take 5 = acts2.take 5 → acts1.length = acts2.length →
      buildComprehensiveAnalysisPrompt { b with actions := Json.arr acts1 } ctx =
        buildComprehensiveAnalysisPrompt { b with actions := Json.arr acts2 } ctx) ∧
    (∀ (b : Bundle) (ls1 ls2 : List Json) (ctx : Option String),
      ls1.take 3 = ls2.take 3 → ls1.length = ls2.length →
      buildComprehensiveAnalysisPrompt { b with related_logs := Json.arr ls1 } ctx =
        buildComprehensiveAnalysisPrompt { b with related_logs := Json.arr ls2 } ctx) ∧
    (∀ (i : Nat) (lvl : Json) (m : String),
      renderRelatedLog i (Json.obj [("level", lvl), ("message", Json.str m)]) =
        .ok ("\nLog " ++ toString i ++ ": [" ++ pyStr lvl ++ "] "
          ++ pyTake m 100 ++ "...\n")) ∧
    (∀ m : String, (pyTake m 100).length = min 100 m.length) ∧
    (∀ (lvl svc msg ts : Json) (s : String), s ≠ "" →
      logSection (Json.obj [("level", lvl), ("service", svc), ("message", msg),
          ("timestamp", ts), ("stackTrace", Json.str s)]) =
        .ok ("\n**PRIMARY ERROR LOG:**\n- Level: " ++ pyStr lvl ++ "\n- Service: "
          ++ pyStr svc ++ "\n- Message: " ++ pyStr msg ++ "\n- Timestamp: " ++ pyStr ts
          ++ "\n- Stack Trace: " ++ pyTake s 500 ++ "\n")) ∧
    (∀ s : String, s.length = 1000 → (pyTake s 500).length = 500) ∧
    buildComprehensiveAnalysisPrompt {} none =
      .ok (comprehensiveHeader ++ comprehensiveFooter) := by
  refine ⟨?_, ?_, ?_, ?_, ?_, ?_, ?_⟩
  · intro b acts1 acts2 ctx h5 hlen
    simp only [buildComprehensiveAnalysisPrompt, actionsSection_take5 acts1 acts2 h5 hlen]
  · intro b ls1 ls2 ctx h3 hlen
    simp only [buildComprehensiveAnalysisPrompt, relatedLogsSection_take3 ls1 ls2 h3 hlen]
  · intro i lvl m
    simp [renderRelatedLog, Json.dget?, Json.dgetD?, pySliceE, toExc, pyStr,
      exc_bind_ok, exc_map_ok, exc_pure]
  · intro m
    cases m with
    | mk data => simp [pyTake, String.length, List.length_take]
  · intro lvl svc msg ts s hs
    have hb : (s != "") = true := by simpa using hs
    simp [logSection, Json.truthy, Json.dget?, Json.dgetD?, pySliceE, toExc, pyStr, hb,
      exc_bind_ok, exc_map_ok, exc_pure]
  · intro s hsl
    cases s with
    | mk data =>
      have hd : data.length = 1000 := by simpa [String.length] using hsl
      simp [pyTake, String.length, List.length_take, hd]
  · simp [buildComprehensiveAnalysisPrompt, logSection, incidentSection, serviceSection,
      actionsSection, relatedLogsSection, contextSection, Json.truthy, str_append_empty,
      exc_bind_ok, exc_map_ok, exc_pure]

def sampleTrace : String := String.mk (List.replicate 1000 'x')

/-- C7 witness: six actions agreeing on their first five render identically;
four related logs agreeing on their first three render identically; a
1000-character message renders as its 100-character prefix; a 1000-character
stack trace renders as its 500-character prefix of length exactly 500. -/
theorem comprehensive_prompt_truncation_witness :
    buildComprehensiveAnalysisPrompt
        { actions := Json.arr (List.replicate 5 (Json.str "a") ++ [Json.str "b"]) } none =
      buildComprehensiveAnalysisPrompt
        { actions := Json.arr (List.replicate 5 (Json.str "a") ++ [Json.str "c"]) } none ∧
    buildComprehensiveAnalysisPrompt
        { related_logs := Json.arr (List.replicate 3 (Json.str "a") ++ [Json.str "b"]) } none =
      buildComprehensiveAnalysisPrompt
        { related_logs := Json.arr (List.replicate 3 (Json.str "a") ++ [Json.str "c"]) } none ∧
    renderRelatedLog 1 (Json.obj [("level", Json.null), ("message", Json.str sampleTrace)]) =
      .ok ("\nLog " ++ toString 1 ++ ": [" ++ pyStr Json.null ++ "] "
        ++ pyTake sampleTrace 100 ++ "...\n") ∧
    (pyTake sampleTrace 100).length = min 100 sampleTrace.length ∧
    logSection (Json.obj [("level", Json.str "error"), ("service", Json.str "svc"),
        ("message", Json.str "m"), ("timestamp", Json.str "t"),
        ("stackTrace", Json.str sampleTrace)]) =
      .ok ("\n**PRIMARY ERROR LOG:**\n- Level: " ++ pyStr (Json.str "error")
        ++ "\n- Service: " ++ pyStr (Json.str "svc") ++ "\n- Message: "
        ++ pyStr (Json.str "m") ++ "\n- Timestamp: " ++ pyStr (Json.str "t")
        ++ "\n- Stack Trace: " ++ pyTake sampleTrace 500 ++ "\n") ∧
    (pyTake sampleTrace 500).length = 500 :=
  ⟨comprehensive_prompt_truncation.1 {} _ _ none (by decide) (by decide),
   comprehensive_prompt_truncation.2.1 {} _ _ none (by decide) (by decide),
   comprehensive_prompt_truncation.2.2.1 1 Json.null sampleTrace,
   comprehensive_prompt_truncation.2.2.2.1 sampleTrace,
   comprehensive_prompt_truncation.2.2.2.2.1 _ _ _ _ sampleTrace (by
     simp [sampleTrace]),
   comprehensive_prompt_truncation.2.2.2.2.2.1 sampleTrace (by
     show (String.mk (List.replicate 1000 'x')).length = 1000
     simp only [String.length, List.length_replicate])⟩
